import Mathlib

/-!
Verification of the SPI marine-data aggregation functions.

JavaScript numbers are modelled as `ℚ` (the computations at issue are exact
on the inputs considered), JS `null`/`undefined`/`NaN` results as `Option`,
and thrown exceptions / rejected promises as `Except`.  Text inputs are
modelled from the tokenised level (the result of the `split(/\s+/)` calls):
a payload is a header token list and a list of row token lists.  Each source
function is embedded close to its text; variants living in different files
are kept in separate namespaces:

* `Buoys`   — src/js/buoys.js (fixed-column buoy parser)
* `WW`      — src/functions/weather/weather.js (header-lookup buoy parser, tide block)
* `Part001` — src/unnamed/part_001 (Promise.all handler, getNoaaTides, pickCurrentWave)
* `Part003` — src/unnamed/part_003 (single-row buoy parser)
* `WFn`     — src/functions/weather.js (sequential handler, wave cache, inline wave selector)
-/

/-! ## Definitions -/

/-! ### JS numeric primitives

`parseFloatJS` models JavaScript `parseFloat` on the simple decimal tokens
occurring in the feeds (optional sign, digits, optional fraction; longest
valid prefix; `none` models `NaN`).  `jsTrunc`/`jsRem` model the `%` operator
on numbers (remainder with the sign of the dividend), `Int.tmod` models `%`
on integer values, and `roundJS` models `Math.round(x*10)/10` as well as
`Number(x.toFixed(1))`, which agree on rationals (ties toward `+∞`). -/

def digitVal (c : Char) : ℕ := c.toNat - 48

def takeDigits : List Char → List ℕ × List Char
  | [] => ([], [])
  | c :: cs =>
    if c.isDigit then
      let p := takeDigits cs
      (digitVal c :: p.1, p.2)
    else ([], c :: cs)

def digitsToNat (ds : List ℕ) : ℕ := ds.foldl (fun a d => 10 * a + d) 0

/-- Discrete front half of `parseFloat`: sign, integer digits, fraction
digits of the longest valid numeric prefix; `none` when no digit is read. -/
def scanFloat (s : String) : Option (Bool × List ℕ × List ℕ) :=
  let cs := s.data
  let sgncs : Bool × List Char :=
    match cs with
    | '-' :: r => (true, r)
    | '+' :: r => (false, r)
    | _ => (false, cs)
  let ip := takeDigits sgncs.2
  let fp : List ℕ :=
    match ip.2 with
    | '.' :: r => (takeDigits r).1
    | _ => []
  if ip.1.isEmpty && fp.isEmpty then none
  else some (sgncs.1, ip.1, fp)

def ratOfParts (p : Bool × List ℕ × List ℕ) : ℚ :=
  (if p.1 then (-1 : ℚ) else 1) *
    ((digitsToNat p.2.1 : ℚ) + (digitsToNat p.2.2 : ℚ) / (10 : ℚ) ^ p.2.2.length)

def parseFloatJS (s : String) : Option ℚ := (scanFloat s).map ratOfParts

def jsTrunc (q : ℚ) : ℤ := if 0 ≤ q then ⌊q⌋ else ⌈q⌉

/-- JS `a % b` on numbers: remainder carrying the sign of the dividend. -/
def jsRem (a b : ℚ) : ℚ := a - b * (jsTrunc (a / b) : ℚ)

/-- `Math.round(q * 10) / 10` (also `Number(q.toFixed(1))`): one decimal,
ties rounded toward `+∞`. -/
def roundJS (q : ℚ) : ℚ := ((⌊q * 10 + 1 / 2⌋ : ℤ) : ℚ) / 10

def CtoF (c : ℚ) : ℚ := c * 9 / 5 + 32

def mpsToKts (m : ℚ) : ℚ := m * (194384 / 100000)

def mToFt (m : ℚ) : ℚ := m * (328084 / 100000)

def splitCharAux (sep : Char) : List Char → List Char → List String
  | [], acc => [String.mk acc.reverse]
  | c :: cs, acc =>
    if c = sep then String.mk acc.reverse :: splitCharAux sep cs []
    else splitCharAux sep cs (c :: acc)

/-- JS `s.split(sep)` for a one-character separator. -/
def splitOnChar (sep : Char) (s : String) : List String :=
  splitCharAux sep s.data []

/-- JS `Array.prototype.indexOf` on a token list: `-1` when absent. -/
def jsIndexOf (l : List String) (s : String) : ℤ :=
  match l.findIdx? (fun x => x == s) with
  | some i => (i : ℤ)
  | none => -1

/-- JS indexed access `c[i]` on a token list: `undefined` (`none`) when the
index is negative or out of range. -/
def getTok (c : List String) (i : ℤ) : Option String :=
  if 0 ≤ i then c.get? i.toNat else none

/-! ### Compass conversion (src/unnamed/part_000 `degToCardinal`,
src/functions/weather.js `degToCardinal`, src/unnamed/part_004 `degToCard`)

`dirs[Math.floor((d % 360) / 22.5 + 0.5) % 16]`.  The inner `%` is the JS
number remainder (`jsRem`), the outer one the JS integer remainder
(`Int.tmod`); an out-of-range (in particular negative) index makes the JS
array access yield `undefined`, modelled by `none`. -/

def dirs : List String :=
  ["N", "NNE", "NE", "ENE", "E", "ESE", "SE", "SSE",
   "S", "SSW", "SW", "WSW", "W", "WNW", "NW", "NNW"]

def compassIndex (d : ℚ) : ℤ :=
  Int.tmod ⌊jsRem d 360 / (45 / 2 : ℚ) + 1 / 2⌋ 16

def degToCardinal (d : ℚ) : Option String :=
  if 0 ≤ compassIndex d then dirs.get? (compassIndex d).toNat else none

/-- The `functions/weather.js` wrapper: `if (d == null) return "--"`. -/
def degToCardinalW (d : Option ℚ) : Option String :=
  match d with
  | none => some ("--")
  | some x => degToCardinal x

/-- The `src/js/util.js` (part_000) wrapper: `null` input gives `null`. -/
def degToCardinalU (d : Option ℚ) : Option String :=
  match d with
  | none => none
  | some x => degToCardinal x

/-- Mathematical form of the index from the spec:
`floor((deg mod 360)/22.5 + 0.5) mod 16` with true (euclidean) `mod`. -/
def specCompassIndex (d : ℚ) : ℤ :=
  (⌊(d - 360 * (⌊d / 360⌋ : ℚ)) / (45 / 2 : ℚ) + 1 / 2⌋) % 16

/-! ### Shared report entities -/

structure Station where
  airF : Option ℚ
  waterF : Option ℚ
  windKts : Option ℚ
  gustKts : Option ℚ
  windDirCardinal : Option String

def fallbackStation : Station := ⟨none, none, none, none, some ("--")⟩

def safeStation (r : Except String Station) : Station :=
  match r with
  | .ok s => s
  | .error _ => fallbackStation

/-- A raw NOAA tide prediction entry `{t, v, type}`. -/
structure TidePred where
  t : String
  v : String
  type : String
deriving DecidableEq

structure SunTimes where
  sunrise : Option String
  sunset : Option String
deriving DecidableEq

/-! ### src/js/buoys.js — fixed-column buoy parser -/

namespace Buoys

/-- One data row after `line.trim().split(/\s+/)`, read at the fixed column
positions 5, 6, 7, 13, 14. -/
structure BRow where
  WDIR : Option ℚ
  WSPD : Option ℚ
  GST : Option ℚ
  ATMP : Option ℚ
  WTMP : Option ℚ

def rowVals (c : List String) : BRow :=
  { WDIR := parseFloatJS (c.getD 5 ("")),
    WSPD := parseFloatJS (c.getD 6 ("")),
    GST := parseFloatJS (c.getD 7 ("")),
    ATMP := parseFloatJS (c.getD 13 ("")),
    WTMP := parseFloatJS (c.getD 14 ("")) }

/-- The `fallback` closure: first row (most recent first) whose value for
the field is not `NaN`. -/
def fallback (f : BRow → Option ℚ) : List BRow → Option ℚ
  | [] => none
  | r :: rs =>
    match f r with
    | some v => some v
    | none => fallback f rs

/-- `fetchBuoy` from src/js/buoys.js after the text has been split into
non-comment data rows (the `#` header is discarded by the line filter). -/
def fetchBuoy (lines : List (List String)) : Station :=
  let rows := lines.map rowVals
  let airC := fallback (fun r => r.ATMP) rows
  let waterC := fallback (fun r => r.WTMP) rows
  let wspd := fallback (fun r => r.WSPD) rows
  let gust := fallback (fun r => r.GST) rows
  let wdir := fallback (fun r => r.WDIR) rows
  { airF := airC.map (fun c => roundJS (CtoF c)),
    waterF := waterC.map (fun c => roundJS (CtoF c)),
    windKts := wspd.map (fun m => roundJS (mpsToKts m)),
    gustKts := gust.map (fun m => roundJS (mpsToKts m)),
    windDirCardinal := degToCardinalU wdir }

end Buoys

/-! ### src/functions/weather/weather.js — header-lookup buoy parser

The header is the token list of the `#`-line containing `WDIR`; data rows
are modelled at the header's arity (`Fin n → String`), and a field is
located with `header.indexOf(name)` — the first matching position. -/

namespace WW

def colIdx {n : ℕ} (hdr : Fin n → String) (name : String) : Option (Fin n) :=
  Fin.find (fun i => hdr i = name)

def colVal {n : ℕ} (hdr : Fin n → String) (row : Fin n → String)
    (name : String) : Option ℚ :=
  match colIdx hdr name with
  | some i => parseFloatJS (row i)
  | none => none

/-- The `newest` closure: first row with a non-`null`, non-`NaN` value. -/
def newest {n : ℕ} (hdr : Fin n → String) (rows : List (Fin n → String))
    (name : String) : Option ℚ :=
  rows.findSome? (fun r => colVal hdr r name)

def fetchBuoy {n : ℕ} (hdr : Fin n → String)
    (rows : List (Fin n → String)) : Station :=
  { airF := (newest hdr rows ("ATMP")).map (fun c => roundJS (CtoF c)),
    waterF := (newest hdr rows ("WTMP")).map (fun c => roundJS (CtoF c)),
    windKts := (newest hdr rows ("WSPD")).map (fun m => roundJS (mpsToKts m)),
    gustKts := (newest hdr rows ("GST")).map (fun m => roundJS (mpsToKts m)),
    windDirCardinal := degToCardinalW (newest hdr rows ("WDIR")) }

structure TideEv where
  t : String
  v : String
deriving DecidableEq

structure Tides where
  high : Option TideEv
  low : Option TideEv

/-- `n.toFixed(1)` for a defined number: one decimal digit, ties toward
`+∞`, rendered as a string. -/
def toFixed1 (q : ℚ) : String :=
  let n : ℤ := ⌊q * 10 + 1 / 2⌋
  (if n < 0 then ("-") else ("")) ++ toString (n.natAbs / 10) ++ (".") ++
    toString (n.natAbs % 10)

/-- `parseFloat(v).toFixed(1)`: `NaN` stringifies to `"NaN"`. -/
def toFixedOpt (q : Option ℚ) : String :=
  match q with
  | some x => toFixed1 x
  | none => ("NaN")

/-- One formatted tide event `{t: toHM(toLocal(new Date(p.t))), v:
parseFloat(p.v).toFixed(1)}`; the timezone conversion (environment tz
database) is abstracted as `tz`. -/
def mkEv (tz : String → String) (p : TidePred) : TideEv :=
  ⟨tz p.t, toFixedOpt (parseFloatJS p.v)⟩

/-- The tides block of the handler in src/functions/weather/weather.js:
`tides = {high:null, low:null}`; if `t.predictions` exists, the first
`"H"`/`"L"` entries (via `Array.prototype.find`) are formatted.  `none`
models a response without a usable prediction list. -/
def tidesBlock (tz : String → String) (preds : Option (List TidePred)) : Tides :=
  match preds with
  | none => ⟨none, none⟩
  | some ps =>
    ⟨(ps.find? (fun p => p.type == "H")).map (mkEv tz),
     (ps.find? (fun p => p.type == "L")).map (mkEv tz)⟩

end WW

/-! ### Wave forecast points and the selector (part_001 / part_004
`pickCurrentWave`; times are epoch milliseconds, `Date` parsing of the ISO
timestamps is abstracted into the numeric `time` field) -/

structure WavePt where
  time : ℚ
  waveFt : Option ℚ

def hasHeight (w : WavePt) : Bool := w.waveFt.isSome

def wDist (now : ℚ) (w : WavePt) : ℚ := |w.time - now|

/-- `dt < diff` where `diff` starts as `Infinity` (`none`). -/
def ltOpt (dt : ℚ) : Option ℚ → Bool
  | none => true
  | some d => decide (dt < d)

def pickLoop (now : ℚ) : List WavePt → Option WavePt → Option ℚ → Option WavePt
  | [], best, _ => best
  | w :: ws, best, diff =>
    match w.waveFt with
    | none => pickLoop now ws best diff
    | some _ =>
      if ltOpt (wDist now w) diff then pickLoop now ws (some w) (some (wDist now w))
      else pickLoop now ws best diff

/-- `pickCurrentWave` from src/unnamed/part_001 lines 186-199 (identical in
part_004 lines 102-117): skip null heights, track the strictly closest
point, return its height (`{waveFt:null}` when nothing was tracked). -/
def pickCurrentWave (now : ℚ) (waves : List WavePt) : Option ℚ :=
  match waves with
  | [] => none
  | _ =>
    match pickLoop now waves none none with
    | some w => w.waveFt
    | none => none

/-- Helper used to relate the loop to the specification: running best over
a list, replacing only on strictly smaller distance. -/
def scanMin (now : ℚ) : WavePt → List WavePt → WavePt
  | b, [] => b
  | b, w :: ws =>
    if hasHeight w = true ∧ wDist now w < wDist now b then scanMin now w ws
    else scanMin now b ws

/-- Modelled from the spec (§4.3 selection algorithm): among the points with
non-null height, the first (in scan order) at minimum `|time − now|`. -/
def minDistPoint (now : ℚ) : List WavePt → Option WavePt
  | [] => none
  | w :: ws =>
    match minDistPoint now ws with
    | none => some w
    | some m => if wDist now m < wDist now w then some m else some w

/-- Proof helper: prefer `m` over the earlier point `b` only on strictly
smaller distance. -/
def combineMin (now : ℚ) (b : WavePt) : Option WavePt → WavePt
  | none => b
  | some m => if wDist now m < wDist now b then m else b

/-- Modelled from the spec: the selected height, `none` for an empty or
all-null series. -/
def specWaveSelection (now : ℚ) (ws : List WavePt) : Option ℚ :=
  (minDistPoint now (ws.filter hasHeight)).bind WavePt.waveFt

/-! ### src/functions/weather.js — inline wave selector, cache, handler -/

/-- A Stormglass hour `{time, waveHeight: {sg}}` with the timestamp already
taken to epoch milliseconds. -/
structure SGHour where
  time : ℚ
  sg : Option ℚ

/-- The `{waveM, waveFt}` value produced by `fetchStormglass`. -/
structure SGVal where
  waveM : Option ℚ
  waveFt : Option ℚ

def sgFail : SGVal := ⟨none, none⟩

namespace WFn

def sgLoop (now : ℚ) : List SGHour → SGHour → ℚ → SGHour
  | [], c, _ => c
  | h :: hs, c, best =>
    if |h.time - now| < best then sgLoop now hs h |h.time - now|
    else sgLoop now hs c best

/-- The selection inside `fetchStormglass` (src/functions/weather.js lines
158-177): `closest = hours[0]; best = 999999999;` then a scan over all
hours by time distance only — null heights are not skipped; the checked
height is read off `closest` afterwards. -/
def sgSelect (now : ℚ) (hours : List SGHour) : SGVal :=
  match hours with
  | [] => ⟨none, none⟩
  | h0 :: _ =>
    let c := sgLoop now hours h0 999999999
    ⟨c.sg, c.sg.map (fun m => roundJS (mToFt m))⟩

structure CacheEntry where
  timestamp : ℚ
  waves : SGVal

def wavesTTL : ℚ := 4 * 60 * 60 * 1000

/-- `getWavesCached` from src/functions/weather.js with the blob store value
and the already-settled `fetchStormglass` result passed explicitly
(`fetchStormglass` never throws: any failure yields the `sgFail` sentinel).
Returns the served value and the store content after the call. -/
def getWavesCached (now : ℚ) (cached : Option CacheEntry) (fetched : SGVal) :
    SGVal × Option CacheEntry :=
  match cached with
  | some c =>
    if now - c.timestamp < wavesTTL then (c.waves, some c)
    else (fetched, some ⟨now, fetched⟩)
  | none => (fetched, some ⟨now, fetched⟩)

structure TidesRaw where
  low : Option TidePred
  high : Option TidePred

def safeTides (r : Except String TidesRaw) : TidesRaw :=
  match r with
  | .ok t => t
  | .error _ => ⟨none, none⟩

structure Resp where
  statusCode : ℕ
  err : Option String
  gulf : Option Station
  bay : Option Station
  waves : Option SGVal
  sun : Option SunTimes
  tides : Option TidesRaw

/-- The handler of src/functions/weather.js: `getWavesCached` is awaited
outside any per-source guard, so its failure (a throwing blob store) reaches
the catch branch, which answers `statusCode: 500` with an all-null body;
buoys and tides are wrapped in `safeFetchBuoy`/`safeFetchTides` and never
throw, and the sun computation is pure. -/
def handler (wavesR : Except String SGVal) (gulfR bayR : Except String Station)
    (tidesR : Except String TidesRaw) (sun : SunTimes) : Resp :=
  match wavesR with
  | .error e =>
    { statusCode := 500, err := some e, gulf := none, bay := none,
      waves := some ⟨none, none⟩, sun := some ⟨none, none⟩,
      tides := some ⟨none, none⟩ }
  | .ok w =>
    { statusCode := 200, err := none, gulf := some (safeStation gulfR),
      bay := some (safeStation bayR), waves := some w, sun := some sun,
      tides := some (safeTides tidesR) }

end WFn

/-! ### src/unnamed/part_001 — getNoaaTides, Promise.all handler -/

namespace Part001

structure TideEv where
  time : String
  v : Option ℚ

structure Tides where
  high : Option TideEv
  low : Option TideEv

def padStart2 (s : String) : String :=
  if s.length < 2 then String.mk (List.replicate (2 - s.length) '0') ++ s else s

/-- `p.t.split(" ")[1].split(":")` with `padStart(2, "0")` on both parts,
and `v: parseFloat(p.v)` — no rounding. -/
def fmt (p : TidePred) : TideEv :=
  let parts := splitOnChar ' ' p.t
  let hm := splitOnChar ':' (parts.getD 1 (""))
  ⟨padStart2 (hm.getD 0 ("")) ++ (":") ++ padStart2 (hm.getD 1 ("")),
    parseFloatJS p.v⟩

/-- `getNoaaTides` from src/unnamed/part_001 lines 44-87: iterate over all
predictions, overwriting `high`/`low` on every matching entry — the *last*
`"H"` and `"L"` events survive.  `none` models a missing prediction list or
a non-OK response. -/
def getNoaaTides (preds : Option (List TidePred)) : Tides :=
  match preds with
  | none => ⟨none, none⟩
  | some ps =>
    ps.foldl
      (fun acc p =>
        ⟨if p.type == "H" then some (fmt p) else acc.high,
         if p.type == "L" then some (fmt p) else acc.low⟩)
      ⟨none, none⟩

structure Forecast where
  timestamp : ℚ
  waves : List WavePt

structure Resp where
  statusCode : ℕ
  err : Option String
  gulf : Option Station
  bay : Option Station
  wavesFt : Option ℚ
  tides : Option Tides
  sun : Option SunTimes
  usharborsOutdated : Bool

/-- The handler of src/unnamed/part_001 lines 219-261: buoys are
safe-wrapped, but `getStormglassForecast`, `getNoaaTides` and `getSunData`
can reject, which rejects the `Promise.all` and lands in the catch branch —
which still answers `statusCode: 200`, with an error body whose data fields
are all null.  Which rejection reason is reported depends on scheduling; the
first failed source in argument order is used here.  `now` is the clock read
by `pickCurrentWave`. -/
def handler (now : ℚ) (gulfR bayR : Except String Station)
    (sgR : Except String Forecast) (tidesR : Except String Tides)
    (sunR : Except String SunTimes) : Resp :=
  match sgR, tidesR, sunR with
  | .ok sg, .ok tides, .ok sun =>
    { statusCode := 200, err := none, gulf := some (safeStation gulfR),
      bay := some (safeStation bayR), wavesFt := pickCurrentWave now sg.waves,
      tides := some tides, sun := some sun, usharborsOutdated := false }
  | sgR, tidesR, sunR =>
    { statusCode := 200,
      err := some
        (match sgR with
         | .error e => e
         | _ =>
           match tidesR with
           | .error e => e
           | _ =>
             match sunR with
             | .error e => e
             | _ => ""),
      gulf := none, bay := none, wavesFt := none,
      tides := some ⟨none, none⟩, sun := some ⟨none, none⟩,
      usharborsOutdated := true }

end Part001

/-! ### src/unnamed/part_003 — single-row buoy parser -/

namespace Part003

structure Obs where
  airF : Option ℚ
  waterF : Option ℚ
  windKts : Option ℚ
  gustKts : Option ℚ
  windDirCardinal : Option String

/-- `parseBuoy` from src/unnamed/part_003 lines 21-65 (post-tokenisation):
the `for` loop returns on its first iteration, so only the newest data row
is ever read; the sentinel `"MM"` maps wind/gust to `0` (not `null`),
air/water to `null`, and the wind direction token is passed through raw.
An empty rows list falls off the loop (JS `undefined`, modelled `none`). -/
def parseBuoy (hdr : List String) (rows : List (List String)) : Option Obs :=
  match rows with
  | [] => none
  | row :: _ =>
    some
      { airF :=
          match getTok row (jsIndexOf hdr ("ATMP")) with
          | some t =>
            if t = ("MM") then none
            else (parseFloatJS t).map (fun c => roundJS (CtoF c))
          | none => none,
        waterF :=
          match getTok row (jsIndexOf hdr ("WTMP")) with
          | some t =>
            if t = ("MM") then none
            else (parseFloatJS t).map (fun c => roundJS (CtoF c))
          | none => none,
        windKts :=
          match getTok row (jsIndexOf hdr ("WSPD")) with
          | some t =>
            if t = ("MM") then some 0
            else (parseFloatJS t).map (fun m => roundJS (mpsToKts m))
          | none => none,
        gustKts :=
          match getTok row (jsIndexOf hdr ("GST")) with
          | some t =>
            if t = ("MM") then some 0
            else (parseFloatJS t).map (fun m => roundJS (mpsToKts m))
          | none => none,
        windDirCardinal :=
          match getTok row (jsIndexOf hdr ("WDIR")) with
          | some t => if t = ("MM") then some ("--") else some t
          | none => none }

end Part003

/-! ### Concrete example payloads for witnesses and counterexamples -/

def hdrEx : List String :=
  ["YY", "MM", "DD", "hh", "mm", "WDIR", "WSPD", "GST", "WVHT", "DPD",
   "APD", "MWD", "PRES", "ATMP", "WTMP"]

/-- Newest row: air temperature missing (`MM`), everything else valid. -/
def row1Ex : List String :=
  ["2025", "10", "12", "10", "00", "180", "5.0", "7.0", "1.0", "9",
   "9", "9", "1015", "MM", "25.0"]

/-- Older row: all five fields valid (`ATMP = 20.0`). -/
def row2Ex : List String :=
  ["2025", "10", "12", "09", "00", "180", "5.0", "7.0", "1.0", "9",
   "9", "9", "1015", "20.0", "25.0"]

/-- Row with wind speed and gust carrying the missing-data sentinel. -/
def rowMMEx : List String :=
  ["2025", "10", "12", "10", "00", "180", "MM", "MM", "1.0", "9",
   "9", "9", "1015", "20.0", "25.0"]

/-- `row2Ex` with columns 5 (`WDIR`) and 13 (`ATMP`) swapped, as a
column-permuted payload (the matching permuted header is ignored by the
fixed-column parser). -/
def row2SwapEx : List String :=
  ["2025", "10", "12", "09", "00", "20.0", "5.0", "7.0", "1.0", "9",
   "9", "9", "1015", "180", "25.0"]

def hdr7 : Fin 7 → String := !["YY", "MM", "WDIR", "WSPD", "GST", "ATMP", "WTMP"]

def row7 : Fin 7 → String := !["25", "10", "180", "5.0", "7.0", "20.0", "25.0"]

def predH0100 : TidePred := ⟨"2025-12-07 01:00", "1.25", "H"⟩

def predL0509 : TidePred := ⟨"2025-12-07 05:09", "1.25", "L"⟩

def predH1307 : TidePred := ⟨"2025-12-07 13:07", "2.0", "H"⟩

def gulfEx : Station := ⟨some 70, some 77, some 10, some 12, some ("N")⟩

def sunEx : SunTimes := ⟨some ("07:03"), some ("17:47")⟩

/-! ## Proofs -/

/-! ### Evaluation helpers -/

lemma parseFloatJS_eval (s : String) (p : Bool × List ℕ × List ℕ)
    (hs : scanFloat s = some p) (q : ℚ) (hq : ratOfParts p = q) :
    parseFloatJS s = some q := by
  unfold parseFloatJS
  rw [hs]
  exact congrArg some hq

lemma parseFloatJS_none (s : String) (hs : scanFloat s = none) :
    parseFloatJS s = none := by
  unfold parseFloatJS
  rw [hs]
  rfl

lemma ratOfParts_pos (ip fp : List ℕ) (a b : ℕ) (ha : digitsToNat ip = a)
    (hb : digitsToNat fp = b) :
    ratOfParts (false, ip, fp) = (a : ℚ) + (b : ℚ) / (10 : ℚ) ^ fp.length := by
  unfold ratOfParts
  rw [ha, hb]
  norm_num

lemma roundJS_eval (q : ℚ) (k : ℤ) (h1 : (k : ℚ) ≤ q * 10 + 1 / 2)
    (h2 : q * 10 + 1 / 2 < k + 1) : roundJS q = (k : ℚ) / 10 := by
  unfold roundJS
  rw [Int.floor_eq_iff.mpr ⟨h1, by push_cast at h2 ⊢; linarith⟩]

lemma pfMM : parseFloatJS ("MM") = none :=
  parseFloatJS_none _ (by decide)

lemma pf180 : parseFloatJS ("180") = some 180 :=
  parseFloatJS_eval _ (false, [1, 8, 0], []) (by decide) 180
    (by rw [ratOfParts_pos _ _ 180 0 (by decide) (by decide)]; norm_num)

lemma pf5 : parseFloatJS ("5.0") = some 5 :=
  parseFloatJS_eval _ (false, [5], [0]) (by decide) 5
    (by rw [ratOfParts_pos _ _ 5 0 (by decide) (by decide)]; norm_num)

lemma pf7 : parseFloatJS ("7.0") = some 7 :=
  parseFloatJS_eval _ (false, [7], [0]) (by decide) 7
    (by rw [ratOfParts_pos _ _ 7 0 (by decide) (by decide)]; norm_num)

lemma pf20 : parseFloatJS ("20.0") = some 20 :=
  parseFloatJS_eval _ (false, [2, 0], [0]) (by decide) 20
    (by rw [ratOfParts_pos _ _ 20 0 (by decide) (by decide)]; norm_num)

lemma pf25 : parseFloatJS ("25.0") = some 25 :=
  parseFloatJS_eval _ (false, [2, 5], [0]) (by decide) 25
    (by rw [ratOfParts_pos _ _ 25 0 (by decide) (by decide)]; norm_num)

lemma pf2 : parseFloatJS ("2.0") = some 2 :=
  parseFloatJS_eval _ (false, [2], [0]) (by decide) 2
    (by rw [ratOfParts_pos _ _ 2 0 (by decide) (by decide)]; norm_num)

lemma pf125 : parseFloatJS ("1.25") = some (5 / 4) :=
  parseFloatJS_eval _ (false, [1], [2, 5]) (by decide) (5 / 4)
    (by rw [ratOfParts_pos _ _ 1 25 (by decide) (by decide)]; norm_num)

lemma rowVals_row1 : Buoys.rowVals row1Ex = ⟨some 180, some 5, some 7, none, some 25⟩ := by
  unfold Buoys.rowVals
  rw [(by decide : row1Ex.getD 5 ("") = ("180")),
    (by decide : row1Ex.getD 6 ("") = ("5.0")),
    (by decide : row1Ex.getD 7 ("") = ("7.0")),
    (by decide : row1Ex.getD 13 ("") = ("MM")),
    (by decide : row1Ex.getD 14 ("") = ("25.0")),
    pf180, pf5, pf7, pfMM, pf25]

lemma rowVals_row2 : Buoys.rowVals row2Ex = ⟨some 180, some 5, some 7, some 20, some 25⟩ := by
  unfold Buoys.rowVals
  rw [(by decide : row2Ex.getD 5 ("") = ("180")),
    (by decide : row2Ex.getD 6 ("") = ("5.0")),
    (by decide : row2Ex.getD 7 ("") = ("7.0")),
    (by decide : row2Ex.getD 13 ("") = ("20.0")),
    (by decide : row2Ex.getD 14 ("") = ("25.0")),
    pf180, pf5, pf7, pf20, pf25]

/-! ### C10 / C5 — compass conversion -/

lemma jsRem_eq_of_nonneg (d : ℚ) (hd : 0 ≤ d) :
    jsRem d 360 = d - 360 * (⌊d / 360⌋ : ℚ) := by
  unfold jsRem jsTrunc
  rw [if_pos (by positivity)]

lemma jsRem_bounds (d : ℚ) (hd : 0 ≤ d) :
    0 ≤ jsRem d 360 ∧ jsRem d 360 < 360 := by
  rw [jsRem_eq_of_nonneg d hd]
  have h1 : d - 360 * (⌊d / 360⌋ : ℚ) = 360 * Int.fract (d / 360) := by
    rw [Int.fract]
    ring
  have h2 := Int.fract_nonneg (d / 360)
  have h3 := Int.fract_lt_one (d / 360)
  constructor
  · rw [h1]; positivity
  · rw [h1]; nlinarith

lemma floorIdx_bounds (d : ℚ) (hd : 0 ≤ d) :
    0 ≤ ⌊jsRem d 360 / (45 / 2 : ℚ) + 1 / 2⌋ ∧
      ⌊jsRem d 360 / (45 / 2 : ℚ) + 1 / 2⌋ ≤ 16 := by
  obtain ⟨h0, h360⟩ := jsRem_bounds d hd
  constructor
  · apply Int.le_floor.mpr
    have : 0 ≤ jsRem d 360 / (45 / 2 : ℚ) := by positivity
    push_cast
    linarith
  · have : ⌊jsRem d 360 / (45 / 2 : ℚ) + 1 / 2⌋ < 17 := by
      apply Int.floor_lt.mpr
      have : jsRem d 360 / (45 / 2 : ℚ) < 16 := by
        rw [div_lt_iff₀ (by norm_num)]
        linarith
      push_cast
      linarith
    omega

lemma tmod16_of_bounds (k : ℤ) (h1 : 0 ≤ k) (h2 : k ≤ 16) :
    Int.tmod k 16 = k % 16 ∧ 0 ≤ Int.tmod k 16 ∧ Int.tmod k 16 < 16 := by
  interval_cases k <;> decide

lemma compassIndex_bounds (d : ℚ) (hd : 0 ≤ d) :
    0 ≤ compassIndex d ∧ compassIndex d < 16 := by
  obtain ⟨h1, h2⟩ := floorIdx_bounds d hd
  obtain ⟨-, h3, h4⟩ := tmod16_of_bounds _ h1 h2
  exact ⟨h3, h4⟩

lemma compassIndex_eq_spec (d : ℚ) (hd : 0 ≤ d) :
    compassIndex d = specCompassIndex d := by
  obtain ⟨h1, h2⟩ := floorIdx_bounds d hd
  obtain ⟨h3, -, -⟩ := tmod16_of_bounds _ h1 h2
  unfold compassIndex specCompassIndex
  rw [h3, jsRem_eq_of_nonneg d hd]

lemma dirs_get?_isSome (i : ℤ) (h1 : 0 ≤ i) (h2 : i < 16) :
    (dirs.get? i.toNat).isSome = true := by
  interval_cases i <;> decide

lemma compassIndex_eval (d : ℚ) (hd : 0 ≤ d) (m k : ℤ)
    (hm : ⌊d / 360⌋ = m)
    (hk : ⌊(d - 360 * (m : ℚ)) / (45 / 2 : ℚ) + 1 / 2⌋ = k) :
    compassIndex d = Int.tmod k 16 := by
  unfold compassIndex
  rw [jsRem_eq_of_nonneg d hd, hm, hk]

lemma compassIndex_neg90 : compassIndex (-90) = -4 := by
  have h1 : jsRem (-90) 360 = -90 := by
    unfold jsRem jsTrunc
    rw [if_neg (by norm_num)]
    have h2 : (⌈(-90 : ℚ) / 360⌉ : ℤ) = 0 := by
      rw [Int.ceil_eq_iff] <;> norm_num
    rw [h2]
    norm_num
  unfold compassIndex
  rw [h1]
  have h3 : (⌊(-90 : ℚ) / (45 / 2) + 1 / 2⌋ : ℤ) = -4 := by
    rw [Int.floor_eq_iff] <;> norm_num
  rw [h3]
  decide

/-- **C10.** For every degree value `d ≥ 0` the index
`floor((d % 360)/22.5 + 0.5) % 16` computed by `degToCardinal` lies in
`[0, 15]`, so the array access is in bounds and one of the 16 compass strings
is returned; and the hypothesis is genuinely needed: at `d = -90` the JS
remainder is negative, the index is `-4`, and the array access yields
`undefined`. -/
theorem degToCardinal_index_bounds :
    (∀ d : ℚ, 0 ≤ d →
      0 ≤ compassIndex d ∧ compassIndex d < 16 ∧
        (degToCardinal d).isSome = true) ∧
    compassIndex (-90) = -4 ∧ degToCardinal (-90) = none := by
  refine ⟨fun d hd => ?_, compassIndex_neg90, ?_⟩
  · obtain ⟨h1, h2⟩ := compassIndex_bounds d hd
    refine ⟨h1, h2, ?_⟩
    unfold degToCardinal
    rw [if_pos h1]
    exact dirs_get?_isSome _ h1 h2
  · unfold degToCardinal
    rw [compassIndex_neg90]
    decide

/-- Closed witness for `degToCardinal_index_bounds`. -/
theorem degToCardinal_index_bounds_witness :
    0 ≤ (725 : ℚ) ∧ (degToCardinal 725).isSome = true :=
  ⟨by norm_num, (degToCardinal_index_bounds.1 725 (by norm_num)).2.2⟩

lemma degToCardinal_eval (d : ℚ) (hd : 0 ≤ d) (m k : ℤ)
    (hm : ⌊d / 360⌋ = m)
    (hk : ⌊(d - 360 * (m : ℚ)) / (45 / 2 : ℚ) + 1 / 2⌋ = k) :
    degToCardinal d =
      (if 0 ≤ Int.tmod k 16 then dirs.get? (Int.tmod k 16).toNat else none) := by
  unfold degToCardinal
  rw [compassIndex_eval d hd m k hm hk]

lemma degToCardinal_zero : degToCardinal 0 = some ("N") := by
  rw [degToCardinal_eval 0 (by norm_num) 0 0 (by norm_num)
    (by rw [Int.floor_eq_iff] <;> norm_num)]
  decide

lemma degToCardinal_1125 : degToCardinal (45 / 4) = some ("NNE") := by
  rw [degToCardinal_eval (45 / 4) (by norm_num) 0 1
    (by rw [Int.floor_eq_iff] <;> norm_num)
    (by rw [Int.floor_eq_iff] <;> norm_num)]
  decide

lemma degToCardinal_34875 : degToCardinal (1395 / 4) = some ("N") := by
  rw [degToCardinal_eval (1395 / 4) (by norm_num) 0 16
    (by rw [Int.floor_eq_iff] <;> norm_num)
    (by rw [Int.floor_eq_iff] <;> norm_num)]
  decide

lemma degToCardinal_180 : degToCardinal 180 = some ("S") := by
  rw [degToCardinal_eval 180 (by norm_num) 0 8
    (by rw [Int.floor_eq_iff] <;> norm_num)
    (by rw [Int.floor_eq_iff] <;> norm_num)]
  decide

/-- **C5 (amended).** `degToCardinal` computes
`dirs[floor((deg mod 360)/22.5 + 0.5) mod 16]` for `deg ≥ 0`, and
`degToCardinal 0 = "N"`, `degToCardinal 348.75 = "N"`,
`degToCardinal 180 = "S"`; at the boundary `11.25` the half rounds up, so
`degToCardinal 11.25 = "NNE"` (not `"N"` as the spec states). -/
theorem degToCardinal_values :
    (∀ d : ℚ, 0 ≤ d →
      degToCardinal d = dirs.get? (specCompassIndex d).toNat) ∧
    degToCardinal 0 = some ("N") ∧
    degToCardinal (45 / 4) = some ("NNE") ∧
    degToCardinal (1395 / 4) = some ("N") ∧
    degToCardinal 180 = some ("S") := by
  refine ⟨fun d hd => ?_, degToCardinal_zero, degToCardinal_1125,
    degToCardinal_34875, degToCardinal_180⟩
  unfold degToCardinal
  rw [if_pos (compassIndex_bounds d hd).1, compassIndex_eq_spec d hd]

/-- Closed witness for `degToCardinal_values`. -/
theorem degToCardinal_values_witness :
    0 ≤ (90 : ℚ) ∧ degToCardinal 90 = dirs.get? (specCompassIndex 90).toNat :=
  ⟨by norm_num, degToCardinal_values.1 90 (by norm_num)⟩

/-- **C5 counterexample.** At the boundary `11.25°` the code yields `"NNE"`,
refuting the claimed `degToCardinal(11.25) = "N"`:
`floor(11.25/22.5 + 0.5) = floor(1) = 1` selects `dirs[1]`. -/
theorem degToCardinal_boundary_cex :
    degToCardinal (45 / 4) = some ("NNE") ∧ degToCardinal (45 / 4) ≠ some ("N") := by
  refine ⟨degToCardinal_1125, ?_⟩
  rw [degToCardinal_1125]
  decide

/-! ### C3 — per-field fallback (src/js/buoys.js) vs single-row parser -/

/-- **C3 (amended).** The fallback-based parser of src/js/buoys.js reads
each of the five fields independently from the newest row in which that
field is numeric: if the newest row's air temperature is missing but the
next row has one, the air temperature comes from the second row while every
other field still comes from the newest row. -/
theorem fetchBuoyJS_per_field_fallback (r1 r2 : List String)
    (rest : List (List String)) (a w s g dd : ℚ)
    (h1 : (Buoys.rowVals r1).ATMP = none) (h2 : (Buoys.rowVals r2).ATMP = some a)
    (h3 : (Buoys.rowVals r1).WTMP = some w) (h4 : (Buoys.rowVals r1).WSPD = some s)
    (h5 : (Buoys.rowVals r1).GST = some g) (h6 : (Buoys.rowVals r1).WDIR = some dd) :
    Buoys.fetchBuoy (r1 :: r2 :: rest) =
      { airF := some (roundJS (CtoF a)),
        waterF := some (roundJS (CtoF w)),
        windKts := some (roundJS (mpsToKts s)),
        gustKts := some (roundJS (mpsToKts g)),
        windDirCardinal := degToCardinalU (some dd) } := by
  simp [Buoys.fetchBuoy, Buoys.fallback, h1, h2, h3, h4, h5, h6]

/-- Closed witness for `fetchBuoyJS_per_field_fallback`. -/
theorem fetchBuoyJS_per_field_fallback_witness :
    (Buoys.rowVals row1Ex).ATMP = none ∧ (Buoys.rowVals row2Ex).ATMP = some 20 ∧
    Buoys.fetchBuoy [row1Ex, row2Ex] =
      { airF := some (roundJS (CtoF 20)),
        waterF := some (roundJS (CtoF 25)),
        windKts := some (roundJS (mpsToKts 5)),
        gustKts := some (roundJS (mpsToKts 7)),
        windDirCardinal := degToCardinalU (some 180) } := by
  have h1 : (Buoys.rowVals row1Ex).ATMP = none := by rw [rowVals_row1]
  have h2 : (Buoys.rowVals row2Ex).ATMP = some 20 := by rw [rowVals_row2]
  have h3 : (Buoys.rowVals row1Ex).WTMP = some 25 := by rw [rowVals_row1]
  have h4 : (Buoys.rowVals row1Ex).WSPD = some 5 := by rw [rowVals_row1]
  have h5 : (Buoys.rowVals row1Ex).GST = some 7 := by rw [rowVals_row1]
  have h6 : (Buoys.rowVals row1Ex).WDIR = some 180 := by rw [rowVals_row1]
  exact ⟨h1, h2,
    fetchBuoyJS_per_field_fallback row1Ex row2Ex [] 20 25 5 7 180 h1 h2 h3 h4 h5 h6⟩

/-- **C3 counterexample.** The parser of src/unnamed/part_003 returns inside
the first loop iteration, so with the newest row's `ATMP = MM` and a valid
`20.0` in the older row it reports `airF = null` instead of the older row's
converted value — no per-field fallback happens. -/
theorem parseBuoy003_no_fallback_cex :
    (Part003.parseBuoy hdrEx [row1Ex, row2Ex]).map Part003.Obs.airF = some none ∧
    (Buoys.rowVals row2Ex).ATMP = some 20 ∧
    (Part003.parseBuoy hdrEx [row1Ex, row2Ex]).map Part003.Obs.airF ≠
      some (some (roundJS (CtoF 20))) := by
  have hm : (Part003.parseBuoy hdrEx [row1Ex, row2Ex]).map Part003.Obs.airF
      = some none := by
    simp only [Part003.parseBuoy]
    rw [(by decide : getTok row1Ex (jsIndexOf hdrEx ("ATMP")) = some ("MM"))]
    simp
  refine ⟨hm, by rw [rowVals_row2], ?_⟩
  rw [hm]
  simp

/-! ### C9 — missing wind/gust reported as 0 by part_003 -/

/-- **C9 (code evaluated at the failing input).** On a row whose `WSPD` and
`GST` carry the `MM` sentinel, `parseBuoy` of src/unnamed/part_003 reports
`windKts = 0` and `gustKts = 0` — not `null` as §7 of the spec mandates —
so a calm-wind reading is indistinguishable from an unavailable one. -/
theorem parseBuoy003_zero_wind_at_missing :
    Part003.parseBuoy hdrEx [rowMMEx] =
      some { airF := some (roundJS (CtoF 20)), waterF := some (roundJS (CtoF 25)),
             windKts := some 0, gustKts := some 0,
             windDirCardinal := some ("180") } ∧
    (some (0 : ℚ) : Option ℚ) ≠ none := by
  constructor
  · simp only [Part003.parseBuoy]
    rw [(by decide : getTok rowMMEx (jsIndexOf hdrEx ("ATMP")) = some ("20.0")),
      (by decide : getTok rowMMEx (jsIndexOf hdrEx ("WTMP")) = some ("25.0")),
      (by decide : getTok rowMMEx (jsIndexOf hdrEx ("WSPD")) = some ("MM")),
      (by decide : getTok rowMMEx (jsIndexOf hdrEx ("GST")) = some ("MM")),
      (by decide : getTok rowMMEx (jsIndexOf hdrEx ("WDIR")) = some ("180"))]
    simp [pf20, pf25]
  · simp

/-! ### C4 — header permutation invariance -/

lemma findSome?_comp_map {α β γ : Type} (f : α → β) (g : β → Option γ)
    (l : List α) : (l.map f).findSome? g = l.findSome? (fun a => g (f a)) := by
  induction l with
  | nil => rfl
  | cons x xs ih => cases h : g (f x) <;> simp [List.findSome?, h, ih]

lemma colIdx_perm {n : ℕ} (hdr : Fin n → String)
    (hinj : Function.Injective hdr) (σ : Equiv.Perm (Fin n)) (name : String) :
    WW.colIdx (hdr ∘ σ) name = (WW.colIdx hdr name).map σ.symm := by
  unfold WW.colIdx
  cases h : Fin.find (fun i => hdr i = name) with
  | none =>
    rw [Fin.find_eq_none_iff] at h
    simp only [Option.map_none']
    rw [Fin.find_eq_none_iff]
    intro i
    exact h (σ i)
  | some i =>
    have hp : hdr i = name := (Fin.find_eq_some_iff.mp h).1
    simp only [Option.map_some']
    rw [Fin.find_eq_some_iff]
    constructor
    · show hdr (σ (σ.symm i)) = name
      rw [Equiv.apply_symm_apply]
      exact hp
    · intro j hj
      have hji : σ j = i := hinj (hj.trans hp.symm)
      have hj2 : j = σ.symm i := by rw [← hji, Equiv.symm_apply_apply]
      exact le_of_eq hj2.symm

lemma colVal_perm {n : ℕ} (hdr : Fin n → String)
    (hinj : Function.Injective hdr) (σ : Equiv.Perm (Fin n))
    (r : Fin n → String) (name : String) :
    WW.colVal (hdr ∘ σ) (r ∘ σ) name = WW.colVal hdr r name := by
  unfold WW.colVal
  rw [colIdx_perm hdr hinj σ name]
  cases h : WW.colIdx hdr name with
  | none => rfl
  | some i => simp [Equiv.apply_symm_apply]

lemma newest_perm {n : ℕ} (hdr : Fin n → String)
    (hinj : Function.Injective hdr) (σ : Equiv.Perm (Fin n))
    (rows : List (Fin n → String)) (name : String) :
    WW.newest (hdr ∘ σ) (rows.map (fun r => r ∘ σ)) name =
      WW.newest hdr rows name := by
  unfold WW.newest
  rw [findSome?_comp_map]
  have he : (fun r : Fin n → String => WW.colVal (hdr ∘ σ) (r ∘ σ) name) =
      fun r => WW.colVal hdr r name :=
    funext fun r => colVal_perm hdr hinj σ r name
  exact congrArg (fun f => List.findSome? f rows) he

/-- **C4 (amended).** The header-lookup parser of
src/functions/weather/weather.js binds each field to the column whose header
token bears its name, so applying any column permutation to the header and
all data rows alike leaves the resulting observation unchanged (the header's
column names being pairwise distinct). -/
theorem fetchBuoyWW_perm_invariant {n : ℕ} (hdr : Fin n → String)
    (σ : Equiv.Perm (Fin n)) (hinj : Function.Injective hdr)
    (rows : List (Fin n → String)) :
    WW.fetchBuoy (hdr ∘ σ) (rows.map (fun r => r ∘ σ)) = WW.fetchBuoy hdr rows := by
  unfold WW.fetchBuoy
  rw [newest_perm hdr hinj σ rows ("ATMP"), newest_perm hdr hinj σ rows ("WTMP"),
    newest_perm hdr hinj σ rows ("WSPD"), newest_perm hdr hinj σ rows ("GST"),
    newest_perm hdr hinj σ rows ("WDIR")]

/-- Closed witness for `fetchBuoyWW_perm_invariant`: swapping the `WDIR` and
`ATMP` columns of a 7-column payload leaves the observation unchanged. -/
theorem fetchBuoyWW_perm_invariant_witness :
    Function.Injective hdr7 ∧
    WW.fetchBuoy (hdr7 ∘ (Equiv.swap (2 : Fin 7) 5))
        ([row7].map (fun r => r ∘ (Equiv.swap (2 : Fin 7) 5))) =
      WW.fetchBuoy hdr7 [row7] := by
  have hinj : Function.Injective hdr7 := by decide
  exact ⟨hinj, fetchBuoyWW_perm_invariant hdr7 (Equiv.swap 2 5) hinj [row7]⟩

lemma fallback_singleton (f : Buoys.BRow → Option ℚ) (r : Buoys.BRow) :
    Buoys.fallback f [r] = f r := by
  cases h : f r <;> simp [Buoys.fallback, h]

lemma fetchBuoy_single (r : List String) :
    Buoys.fetchBuoy [r] =
      { airF := ((Buoys.rowVals r).ATMP).map (fun c => roundJS (CtoF c)),
        waterF := ((Buoys.rowVals r).WTMP).map (fun c => roundJS (CtoF c)),
        windKts := ((Buoys.rowVals r).WSPD).map (fun m => roundJS (mpsToKts m)),
        gustKts := ((Buoys.rowVals r).GST).map (fun m => roundJS (mpsToKts m)),
        windDirCardinal := degToCardinalU ((Buoys.rowVals r).WDIR) } := by
  unfold Buoys.fetchBuoy
  simp only [List.map_cons, List.map_nil]
  rw [fallback_singleton, fallback_singleton, fallback_singleton,
    fallback_singleton, fallback_singleton]

lemma rowVals_row2swap :
    Buoys.rowVals row2SwapEx = ⟨some 20, some 5, some 7, some 180, some 25⟩ := by
  unfold Buoys.rowVals
  rw [(by decide : row2SwapEx.getD 5 ("") = ("20.0")),
    (by decide : row2SwapEx.getD 6 ("") = ("5.0")),
    (by decide : row2SwapEx.getD 7 ("") = ("7.0")),
    (by decide : row2SwapEx.getD 13 ("") = ("180")),
    (by decide : row2SwapEx.getD 14 ("") = ("25.0")),
    pf20, pf5, pf7, pf180, pf25]

lemma roundJS_CtoF_20 : roundJS (CtoF 20) = 68 := by
  have h : CtoF 20 = (68 : ℚ) := by unfold CtoF; norm_num
  rw [h, roundJS_eval 68 680 (by norm_num) (by norm_num)]
  norm_num

lemma roundJS_CtoF_180 : roundJS (CtoF 180) = 356 := by
  have h : CtoF 180 = (356 : ℚ) := by unfold CtoF; norm_num
  rw [h, roundJS_eval 356 3560 (by norm_num) (by norm_num)]
  norm_num

/-- **C4 counterexample.** The fixed-column parser of src/js/buoys.js reads
positions 5, 6, 7, 13, 14 regardless of the header: on the same payload with
the `WDIR` and `ATMP` columns swapped (header and data alike — the header is
discarded by its line filter), the air temperature changes from `68 °F`
(from `20 °C`) to `356 °F` (from the misread `180`), so the observation is
not invariant under column permutation. -/
theorem fetchBuoyJS_not_perm_invariant_cex :
    (Buoys.fetchBuoy [row2Ex]).airF = some (roundJS (CtoF 20)) ∧
    (Buoys.fetchBuoy [row2SwapEx]).airF = some (roundJS (CtoF 180)) ∧
    roundJS (CtoF 20) = 68 ∧ roundJS (CtoF 180) = 356 ∧
    Buoys.fetchBuoy [row2Ex] ≠ Buoys.fetchBuoy [row2SwapEx] := by
  have hA : (Buoys.fetchBuoy [row2Ex]).airF = some (roundJS (CtoF 20)) := by
    rw [fetchBuoy_single, rowVals_row2]
    rfl
  have hB : (Buoys.fetchBuoy [row2SwapEx]).airF = some (roundJS (CtoF 180)) := by
    rw [fetchBuoy_single, rowVals_row2swap]
    rfl
  refine ⟨hA, hB, roundJS_CtoF_20, roundJS_CtoF_180, fun h => ?_⟩
  have h2 := congrArg Station.airF h
  rw [hA, hB, roundJS_CtoF_20, roundJS_CtoF_180] at h2
  exact absurd (Option.some.inj h2) (by norm_num)

/-! ### C6 — first High / first Low tide events -/

lemma find?_first {α : Type} (pr : α → Bool) (as bs : List α) (p : α)
    (hp : pr p = true) (ha : ∀ q ∈ as, pr q = false) :
    (as ++ p :: bs).find? pr = some p := by
  induction as with
  | nil => simp [List.find?_cons, hp]
  | cons x xs ih =>
    have hx := ha x (List.mem_cons_self x xs)
    simp only [List.cons_append, List.find?_cons, hx]
    exact ih fun q hq => ha q (List.mem_cons_of_mem x hq)

/-- **C6 (amended).** The tide block of src/functions/weather/weather.js:
with no usable prediction list both events are `null`; otherwise `high` is
the *first* `"H"` entry and `low` the *first* `"L"` entry in list order,
each formatted with the height `toFixed(1)` and the timestamp put through
the local-timezone conversion `tz`, and each side degrades to `null`
independently when its event type is absent. -/
theorem tidesBlock_first_events (tz : String → String) :
    (WW.tidesBlock tz none = ⟨none, none⟩) ∧
    (∀ (as : List TidePred) (p : TidePred) (bs : List TidePred),
      p.type = ("H") → (∀ q ∈ as, q.type ≠ ("H")) →
      (WW.tidesBlock tz (some (as ++ p :: bs))).high =
        some ⟨tz p.t, WW.toFixedOpt (parseFloatJS p.v)⟩) ∧
    (∀ ps : List TidePred, (∀ q ∈ ps, q.type ≠ ("H")) →
      (WW.tidesBlock tz (some ps)).high = none) ∧
    (∀ (as : List TidePred) (p : TidePred) (bs : List TidePred),
      p.type = ("L") → (∀ q ∈ as, q.type ≠ ("L")) →
      (WW.tidesBlock tz (some (as ++ p :: bs))).low =
        some ⟨tz p.t, WW.toFixedOpt (parseFloatJS p.v)⟩) ∧
    (∀ ps : List TidePred, (∀ q ∈ ps, q.type ≠ ("L")) →
      (WW.tidesBlock tz (some ps)).low = none) := by
  refine ⟨rfl, ?_, ?_, ?_, ?_⟩
  · intro as p bs hp ha
    simp only [WW.tidesBlock]
    rw [find?_first _ as bs p (by simp [hp]) fun q hq => by simp [ha q hq]]
    rfl
  · intro ps ha
    simp only [WW.tidesBlock]
    rw [List.find?_eq_none.mpr fun x hx => by simp [ha x hx]]
    rfl
  · intro as p bs hp ha
    simp only [WW.tidesBlock]
    rw [find?_first _ as bs p (by simp [hp]) fun q hq => by simp [ha q hq]]
    rfl
  · intro ps ha
    simp only [WW.tidesBlock]
    rw [List.find?_eq_none.mpr fun x hx => by simp [ha x hx]]
    rfl

/-- Closed witness for `tidesBlock_first_events`. -/
theorem tidesBlock_first_events_witness :
    predH1307.type = ("H") ∧ (∀ q ∈ [predL0509], q.type ≠ ("H")) ∧
    (WW.tidesBlock (fun s => s) (some ([predL0509] ++ predH1307 :: []))).high =
      some ⟨predH1307.t, WW.toFixedOpt (parseFloatJS predH1307.v)⟩ := by
  have h1 : predH1307.type = ("H") := by decide
  have h2 : ∀ q ∈ [predL0509], q.type ≠ ("H") := by decide
  exact ⟨h1, h2,
    (tidesBlock_first_events (fun s => s)).2.1 [predL0509] predH1307 [] h1 h2⟩

lemma fmt_H0100 : Part001.fmt predH0100 = ⟨("01:00"), some (5 / 4)⟩ := by
  simp only [Part001.fmt]
  rw [(by decide : predH0100.v = ("1.25")), pf125]
  exact congrArg₂ Part001.TideEv.mk (by decide) rfl

lemma fmt_L0509 : Part001.fmt predL0509 = ⟨("05:09"), some (5 / 4)⟩ := by
  simp only [Part001.fmt]
  rw [(by decide : predL0509.v = ("1.25")), pf125]
  exact congrArg₂ Part001.TideEv.mk (by decide) rfl

lemma fmt_H1307 : Part001.fmt predH1307 = ⟨("13:07"), some 2⟩ := by
  simp only [Part001.fmt]
  rw [(by decide : predH1307.v = ("2.0")), pf2]
  exact congrArg₂ Part001.TideEv.mk (by decide) rfl

lemma tides001_eval :
    Part001.getNoaaTides (some [predH0100, predL0509, predH1307]) =
      ⟨some (Part001.fmt predH1307), some (Part001.fmt predL0509)⟩ := by
  simp only [Part001.getNoaaTides, List.foldl]
  rw [(by decide : (predH0100.type == "H") = true),
    (by decide : (predH0100.type == "L") = false),
    (by decide : (predL0509.type == "H") = false),
    (by decide : (predL0509.type == "L") = true),
    (by decide : (predH1307.type == "H") = true),
    (by decide : (predH1307.type == "L") = false)]
  rfl

/-- **C6 counterexample.** `getNoaaTides` of src/unnamed/part_001 overwrites
`high`/`low` on every matching entry while looping, so on a day with two
High events (01:00 and 13:07) it returns the *last* one, `13:07`, not the
first as claimed; and the height it stores is the raw `parseFloat(p.v)` —
`1.25` stays `1.25`, unrounded. -/
theorem getNoaaTides001_last_event_cex :
    (Part001.getNoaaTides (some [predH0100, predL0509, predH1307])).high =
      some ⟨("13:07"), some 2⟩ ∧
    (Part001.fmt predH0100).time = ("01:00") ∧
    (("13:07") : String) ≠ ("01:00") ∧
    (Part001.getNoaaTides (some [predH0100, predL0509, predH1307])).low =
      some ⟨("05:09"), some (5 / 4)⟩ ∧
    roundJS (5 / 4) ≠ (5 / 4 : ℚ) := by
  refine ⟨?_, ?_, by decide, ?_, ?_⟩
  · rw [tides001_eval]
    dsimp only
    rw [fmt_H1307]
  · rw [fmt_H0100]
  · rw [tides001_eval]
    dsimp only
    rw [fmt_L0509]
  · rw [roundJS_eval (5 / 4) 13 (by norm_num) (by norm_num)]
    norm_num

/-! ### C8 — wave cache policy on stale entry and failed fetch -/

/-- **C8 (amended).** `getWavesCached` of src/functions/weather.js serves
the stored value untouched while the entry is younger than the 4-hour TTL;
once stale (or absent) it unconditionally stores and serves whatever
`fetchStormglass` returned — including the `{waveM:null, waveFt:null}`
failure sentinel, which then replaces the previously cached value. -/
theorem getWavesCached_policy :
    (∀ (now : ℚ) (c : WFn.CacheEntry) (fetched : SGVal),
      now - c.timestamp < WFn.wavesTTL →
        WFn.getWavesCached now (some c) fetched = (c.waves, some c)) ∧
    (∀ (now : ℚ) (c : WFn.CacheEntry) (fetched : SGVal),
      ¬(now - c.timestamp < WFn.wavesTTL) →
        WFn.getWavesCached now (some c) fetched = (fetched, some ⟨now, fetched⟩)) ∧
    (∀ (now : ℚ) (fetched : SGVal),
      WFn.getWavesCached now none fetched = (fetched, some ⟨now, fetched⟩)) := by
  refine ⟨fun now c f h => ?_, fun now c f h => ?_, fun now f => rfl⟩
  · simp only [WFn.getWavesCached]
    rw [if_pos h]
  · simp only [WFn.getWavesCached]
    rw [if_neg h]

/-- Closed witness for `getWavesCached_policy`: a stale entry plus a failed
fetch stores and serves the sentinel. -/
theorem getWavesCached_policy_witness :
    ¬((14400000 : ℚ) - (0 : ℚ) < WFn.wavesTTL) ∧
    WFn.getWavesCached 14400000 (some ⟨0, ⟨some 1, some 3⟩⟩) sgFail =
      (sgFail, some ⟨14400000, sgFail⟩) := by
  have h : ¬((14400000 : ℚ) - (0 : ℚ) < WFn.wavesTTL) := by
    norm_num [WFn.wavesTTL]
  exact ⟨h, getWavesCached_policy.2.1 14400000 ⟨0, ⟨some 1, some 3⟩⟩ sgFail h⟩

/-- **C8 counterexample.** One millisecond past the TTL, with the upstream
failed (`fetchStormglass` returned the sentinel), `getWavesCached` does
*not* serve the previously cached value `{waveM: 1, waveFt: 3.3}`: it serves
the all-null sentinel and overwrites the cache entry with it. -/
theorem getWavesCached_overwrite_cex :
    WFn.getWavesCached 14400001 (some ⟨0, ⟨some 1, some (33 / 10)⟩⟩) sgFail =
      (sgFail, some ⟨14400001, sgFail⟩) ∧
    sgFail ≠ (⟨some 1, some (33 / 10)⟩ : SGVal) := by
  constructor
  · simp only [WFn.getWavesCached]
    rw [if_neg]
    show ¬((14400001 : ℚ) - (0 : ℚ) < WFn.wavesTTL)
    norm_num [WFn.wavesTTL]
  · intro h
    simp [sgFail] at h

/-! ### C1 / C2 — handler status codes and fault isolation -/

/-- **C1 (amended).** The Promise.all handler of src/unnamed/part_001
answers HTTP 200 for every combination of source outcomes — its catch
branch also returns `statusCode: 200` with the error body, so total source
failure never produces an error status. -/
theorem handler001_always_200 (now : ℚ) (gulfR bayR : Except String Station)
    (sgR : Except String Part001.Forecast) (tidesR : Except String Part001.Tides)
    (sunR : Except String SunTimes) :
    (Part001.handler now gulfR bayR sgR tidesR sunR).statusCode = 200 := by
  cases sgR <;> cases tidesR <;> cases sunR <;> rfl

/-- **C1 counterexample.** The sequential handler of src/functions/weather.js
awaits `getWavesCached` outside any guard; when the blob store throws there,
the catch branch answers `statusCode: 500` — an error status, refuting the
claim for this handler. -/
theorem handlerW_500_on_cache_failure :
    (WFn.handler (.error ("blob store unavailable")) (.ok fallbackStation)
        (.ok fallbackStation) (.ok ⟨none, none⟩) ⟨none, none⟩).statusCode = 500 ∧
    (500 : ℕ) ≠ 200 :=
  ⟨rfl, by norm_num⟩

/-- **C2 (amended).** In the sequential handler of src/functions/weather.js
a throwing tide source is isolated by `safeFetchTides`: the response is 200,
the buoy, wave and sun fields are exactly the fetched values, and the tides
field degrades to `{low:null, high:null}`.  No `degraded` flag exists in the
response shape. -/
theorem handlerW_tide_failure_isolated (w : SGVal) (g b : Station) (e : String)
    (sun : SunTimes) :
    WFn.handler (.ok w) (.ok g) (.ok b) (.error e) sun =
      { statusCode := 200, err := none, gulf := some g, bay := some b,
        waves := some w, sun := some sun, tides := some ⟨none, none⟩ } :=
  rfl

/-- **C2 counterexample.** In the Promise.all handler of src/unnamed/part_001
the tide source is *not* safe-wrapped: its rejection rejects the whole
`Promise.all`, and the catch body nulls every field — the successfully
fetched buoy and sun values are dropped from the response. -/
theorem handler001_tide_throw_drops_fields :
    (Part001.handler 0 (.ok gulfEx) (.ok gulfEx) (.ok ⟨0, []⟩)
        (.error ("tide fetch failed")) (.ok sunEx)).gulf = none ∧
    (Part001.handler 0 (.ok gulfEx) (.ok gulfEx) (.ok ⟨0, []⟩)
        (.error ("tide fetch failed")) (.ok sunEx)).sun = some ⟨none, none⟩ ∧
    (Part001.handler 0 (.ok gulfEx) (.ok gulfEx) (.ok ⟨0, []⟩)
        (.error ("tide fetch failed")) (.ok sunEx)).gulf ≠ some gulfEx ∧
    sunEx ≠ (⟨none, none⟩ : SunTimes) := by
  refine ⟨rfl, rfl, ?_, by decide⟩
  intro h
  exact Option.noConfusion h

/-! ### C7 — nearest-point wave selection -/

lemma pickLoop_cons_none (now : ℚ) (w : WavePt) (hv : w.waveFt = none)
    (ws : List WavePt) (best : Option WavePt) (diff : Option ℚ) :
    pickLoop now (w :: ws) best diff = pickLoop now ws best diff := by
  simp only [pickLoop, hv]

lemma pickLoop_cons_some (now : ℚ) (w : WavePt) (v : ℚ) (hv : w.waveFt = some v)
    (ws : List WavePt) (best : Option WavePt) (diff : Option ℚ) :
    pickLoop now (w :: ws) best diff =
      if ltOpt (wDist now w) diff then pickLoop now ws (some w) (some (wDist now w))
      else pickLoop now ws best diff := by
  simp only [pickLoop, hv]

lemma hasHeight_of_some (w : WavePt) (v : ℚ) (hv : w.waveFt = some v) :
    hasHeight w = true := by
  simp [hasHeight, hv]

lemma pickLoop_acc (now : ℚ) :
    ∀ (ws : List WavePt) (b : WavePt),
      pickLoop now ws (some b) (some (wDist now b)) = some (scanMin now b ws) := by
  intro ws
  induction ws with
  | nil => intro b; rfl
  | cons w ws ih =>
    intro b
    cases hv : w.waveFt with
    | none =>
      rw [pickLoop_cons_none now w hv, ih b]
      simp only [scanMin]
      rw [if_neg (by simp [hasHeight, hv])]
    | some v =>
      rw [pickLoop_cons_some now w v hv]
      have hw := hasHeight_of_some w v hv
      by_cases hlt : wDist now w < wDist now b
      · rw [if_pos (by simp [ltOpt, hlt]), ih w]
        simp only [scanMin]
        rw [if_pos ⟨hw, hlt⟩]
      · rw [if_neg (by simp [ltOpt, hlt]), ih b]
        simp only [scanMin]
        rw [if_neg (by tauto)]

lemma combineMin_absorb (now : ℚ) (b m' : WavePt)
    (h : wDist now m' < wDist now b) : combineMin now b (some m') = m' := by
  simp only [combineMin]
  rw [if_pos h]

lemma minDistPoint_cons (now : ℚ) (w : WavePt) (l : List WavePt) :
    minDistPoint now (w :: l) = some (combineMin now w (minDistPoint now l)) := by
  cases h : minDistPoint now l with
  | none => simp [minDistPoint, combineMin, h]
  | some m =>
    simp only [minDistPoint, combineMin, h]
    split_ifs <;> rfl

lemma wDist_combineMin_le (now : ℚ) (b : WavePt) (X : Option WavePt) :
    wDist now (combineMin now b X) ≤ wDist now b := by
  cases X with
  | none => exact le_refl _
  | some m =>
    simp only [combineMin]
    split_ifs with h
    · exact le_of_lt h
    · exact le_refl _

lemma scanMin_eq (now : ℚ) :
    ∀ (ws : List WavePt) (b : WavePt),
      scanMin now b ws = combineMin now b (minDistPoint now (ws.filter hasHeight)) := by
  intro ws
  induction ws with
  | nil => intro b; rfl
  | cons w ws ih =>
    intro b
    cases hw : hasHeight w with
    | false =>
      simp only [scanMin]
      rw [if_neg (by simp [hw]), List.filter_cons_of_neg (by simp [hw]), ih b]
    | true =>
      rw [List.filter_cons_of_pos hw, minDistPoint_cons]
      simp only [scanMin]
      by_cases hlt : wDist now w < wDist now b
      · rw [if_pos ⟨hw, hlt⟩, ih w,
          combineMin_absorb now b _ (lt_of_le_of_lt
            (wDist_combineMin_le now w (minDistPoint now (ws.filter hasHeight))) hlt)]
      · rw [if_neg (by tauto), ih b]
        cases hm : minDistPoint now (ws.filter hasHeight) with
        | none =>
          show b = combineMin now b (some (combineMin now w none))
          simp only [combineMin]
          rw [if_neg hlt]
        | some m =>
          show combineMin now b (some m) =
            combineMin now b (some (combineMin now w (some m)))
          simp only [combineMin]
          by_cases h2 : wDist now m < wDist now w
          · rw [if_pos h2]
          · rw [if_neg h2, if_neg hlt, if_neg (by push_neg at hlt h2; linarith)]

lemma pickLoop_start (now : ℚ) :
    ∀ ws : List WavePt,
      pickLoop now ws none none = minDistPoint now (ws.filter hasHeight) := by
  intro ws
  induction ws with
  | nil => rfl
  | cons w ws ih =>
    cases hv : w.waveFt with
    | none =>
      rw [pickLoop_cons_none now w hv, ih,
        List.filter_cons_of_neg (by simp [hasHeight, hv])]
    | some v =>
      have hw := hasHeight_of_some w v hv
      rw [pickLoop_cons_some now w v hv, if_pos (by simp [ltOpt]),
        pickLoop_acc now ws w, scanMin_eq now ws w,
        List.filter_cons_of_pos hw, minDistPoint_cons]

/-- **C7.** `pickCurrentWave` refines the spec's selection: among the
points with non-null height it returns the height of the first point (in
scan order, so ties go to the earlier point) at minimum `|time − now|`, and
returns `null` for an empty or all-null series. -/
theorem pickCurrentWave_eq_spec (now : ℚ) (ws : List WavePt) :
    pickCurrentWave now ws = specWaveSelection now ws := by
  cases ws with
  | nil => rfl
  | cons w ws =>
    simp only [pickCurrentWave, specWaveSelection]
    rw [pickLoop_start now (w :: ws)]
    cases hm : minDistPoint now ((w :: ws).filter hasHeight) with
    | none => rfl
    | some m => rfl

/-- **C7 counterexample.** The inline selector of `fetchStormglass` in
src/functions/weather.js does *not* skip null-height points: with the
nearest hour carrying a null height and a farther hour carrying `1 m`, it
returns `{waveM:null, waveFt:null}`, while selection restricted to non-null
points (run on the same non-null hour alone) yields `0.5 m → 3.3 ft`. -/
theorem sgSelect_null_not_skipped_cex :
    WFn.sgSelect 0 [⟨0, none⟩, ⟨3600000, some 1⟩] = ⟨none, none⟩ ∧
    WFn.sgSelect 0 [⟨3600000, some 1⟩] = ⟨some 1, some (roundJS (mToFt 1))⟩ ∧
    (⟨none, none⟩ : SGVal) ≠ ⟨some 1, some (roundJS (mToFt 1))⟩ := by
  have hc1 : |(0 : ℚ) - 0| < 999999999 := by
    rw [sub_self, abs_zero]
    norm_num
  have hc2 : ¬(|(3600000 : ℚ) - 0| < |(0 : ℚ) - 0|) := by
    rw [sub_self, abs_zero]
    exact not_lt.mpr (abs_nonneg _)
  have hc3 : |(3600000 : ℚ) - 0| < 999999999 := by
    rw [sub_zero, abs_of_nonneg (by norm_num : (0 : ℚ) ≤ 3600000)]
    norm_num
  refine ⟨?_, ?_, ?_⟩
  · simp only [WFn.sgSelect, WFn.sgLoop]
    rw [if_pos hc1, if_neg hc2]
    rfl
  · simp only [WFn.sgSelect, WFn.sgLoop]
    rw [if_pos hc3]
    rfl
  · intro h
    simp at h
